import Mathlib

/-!
Shallow embedding of `src/bot.ts` (class `EmailMonitorBot`) and of the
configuration provider, for verification of the monitoring spec.

Conventions of the embedding:
- JavaScript strings are modelled as Lean `String`; `toLowerCase` is modelled
  character-wise with `Char.toLower` (ASCII case mapping), `includes` as a
  substring test on the character list, `substring (0, n)` as `take n`.
- JavaScript truthiness on strings (`s && ...`, `s ? ... : ...`) is modelled
  as `s ≠ ""`; truthiness on a possibly-undefined numeric id as
  `userId = some u` with `u ≠ 0`.
- Values that may be `undefined` are `Option`; a `throw` is `Except.error`.
- The side-effecting IMAP/Telegram calls are modelled as traces of explicit
  operations (`MailOp`, `SupAction`), emitted in the order the source issues
  the calls.
-/

/-! ### JavaScript string primitives -/

/-- Bool test that `needle` occurs as a contiguous run inside a character
list; embeds JavaScript `String.prototype.includes`. -/
def hasSubstring (needle : List Char) : List Char → Bool
  | [] => needle.isEmpty
  | c :: rest => needle.isPrefixOf (c :: rest) || hasSubstring needle rest

/-- Embeds `s.includes(token)`. -/
def containsToken (token s : String) : Bool := hasSubstring token.data s.data

/-- Embeds `s.toLowerCase()` (ASCII case mapping). -/
def jsToLower (s : String) : String := String.mk (s.data.map Char.toLower)

/-- Embeds `s.substring(0, n)`. -/
def jsSubstringTo (s : String) (n : Nat) : String := String.mk (s.data.take n)

/-- Embeds the JavaScript `x || d` fallback on a possibly-undefined string
(`undefined` and `""` are both falsy). -/
def jsOr (o : Option String) (d : String) : String :=
  match o with
  | some s => if s = "" then d else s
  | none => d

/-! ### Data model -/

/-- A parsed mail message, as produced by `simpleParser`: the four fields the
bot reads. `fromText` stands for `mail.from?.text`; `dateStr` stands for the
already-localized `mail.date?.toLocaleString('ru-RU')` (locale rendering is
external to the embedding). -/
structure MailMessage where
  subject : Option String
  fromText : Option String
  dateStr : Option String
  text : Option String
deriving DecidableEq

/-- Lifecycle state of the IMAP connection (spec `ConnectionState`). -/
inductive ConnState
  | disconnected
  | connecting
  | ready
  | degraded
deriving DecidableEq

/-! ### Alert classifier and message formatting (`bot.ts` lines 182–185, 236–247) -/

/-- Embeds the classifier condition of `searchEmails`:
`mail.subject && mail.subject.toLowerCase().includes('alert')`. -/
def isAlert (subject : Option String) : Bool :=
  match subject with
  | none => false
  | some s => (s != "") && containsToken "alert" (jsToLower s)

/-- Embeds the body-text expression of `formatAlertMessage`:
`mail.text ? mail.text.substring(0, 500) + '...' : 'Нет текста'`. -/
def alertBodyText (mail : MailMessage) : String :=
  match mail.text with
  | some t => if t = "" then "Нет текста" else jsSubstringTo t 500 ++ "..."
  | none => "Нет текста"

/-- Embeds `formatAlertMessage`; `now` stands for
`new Date().toLocaleString('ru-RU')`, the fallback when the mail carries no
date. -/
def formatAlertMessage (now : String) (mail : MailMessage) : String :=
  let subject := jsOr mail.subject "Без темы"
  let sender := jsOr mail.fromText "Неизвестный отправитель"
  let date := jsOr mail.dateStr now
  let text := alertBodyText mail
  "🚨 ALERT УВЕДОМЛЕНИЕ\n\n" ++
    "📧 От: " ++ sender ++ "\n" ++
    "📋 Тема: " ++ subject ++ "\n" ++
    "🕒 Время: " ++ date ++ "\n\n" ++
    "📝 Содержание:\n" ++ text

/-! ### Poll-cycle trace (`checkNewEmails` / `openInbox` / `searchEmails` /
`markAsRead`, `bot.ts` lines 122–218) -/

/-- One observable IMAP/Telegram operation issued during a poll cycle. -/
inductive MailOp
  | openBox (name : String) (readOnly : Bool)
  | search
  | fetch (markSeen : Bool)
  | sendAlert (mail : MailMessage)
  | addFlagsSeen (uid : Nat)
deriving DecidableEq

/-- Embeds the per-message `stream.on('end')` handler of `searchEmails`: the
parsed mail is classified, an alert notification is sent if it matches, and
then `markAsRead` issues an explicit `addFlags(uid, ['\Seen'])` call. -/
def processMessage (uid : Nat) (mail : MailMessage) : List MailOp :=
  (if isAlert mail.subject then [MailOp.sendAlert mail] else []) ++
    [MailOp.addFlagsSeen uid]

/-- Embeds `searchEmails`: search for unseen messages; if any, fetch them all
with `{ bodies: '' }` — the `markSeen` option is not set, so it takes the
node-imap default `false` — and process each fetched message in order.
`results` pairs each result uid with the message the server streams for it. -/
def searchEmailsOps (results : List (Nat × MailMessage)) : List MailOp :=
  MailOp.search ::
    (if results.isEmpty then []
     else MailOp.fetch false ::
       (results.map (fun p => processMessage p.1 p.2)).flatten)

/-- Embeds `checkNewEmails` followed by `openInbox`: an empty subscriber set
returns before any IMAP call; otherwise `openBox('INBOX', false)` (read-write)
is issued and the search runs. -/
def checkNewEmails (subs : List Int) (mailbox : List (Nat × MailMessage)) :
    List MailOp :=
  if subs.length = 0 then []
  else MailOp.openBox "INBOX" false :: searchEmailsOps mailbox

/-! ### Notification dispatch (`sendAlertNotification`, `bot.ts` lines 220–234) -/

/-- Outcome of one `bot.telegram.sendMessage` call; `fail msg` carries the
thrown error's `.message`. -/
inductive DeliveryResult
  | ok
  | fail (msg : String)
deriving DecidableEq

/-- Embeds the permanent-failure test `error.message.includes('blocked')`. -/
def isBlockedError (msg : String) : Bool := containsToken "blocked" msg

/-- Embeds the delivery loop of `sendAlertNotification`: for each subscriber
in order, attempt delivery of the one pre-rendered `message`; a failure is
caught, and the subscriber is removed only when the error message contains
"blocked". Returns the list of (subscriber, delivered text) pairs and the
list of removed subscribers. -/
def sendAlertNotification (outcome : Int → DeliveryResult) (message : String) :
    List Int → List (Int × String) × List Int
  | [] => ([], [])
  | u :: rest =>
    let res := sendAlertNotification outcome message rest
    match outcome u with
    | DeliveryResult.ok => ((u, message) :: res.1, res.2)
    | DeliveryResult.fail m =>
        if isBlockedError m then (res.1, u :: res.2) else res

/-! ### Telegram command handlers (`setupBot`, `bot.ts` lines 71–113) -/

/-- Reply sent by `/start` to an allow-listed user. -/
def startOkReply : String :=
  "✅ Бот запущен! Вы будете получать уведомления о письмах с темой содержащей \"alert\".\n\n" ++
    "Команды:\n" ++
    "/status - статус мониторинга\n" ++
    "/stop - остановить уведомления"

/-- Reply sent by `/start` to a user outside the allow-list. -/
def noAccessReply : String := "❌ У вас нет доступа к этому боту."

/-- Reply sent by `/stop`. -/
def stopReply : String :=
  "🔕 Уведомления остановлены. Используйте /start для возобновления."

/-- Embeds a JavaScript `Set.add`: inserts at the end when absent. -/
def setAdd (s : List Int) (u : Int) : List Int := if u ∈ s then s else s ++ [u]

/-- Embeds the `/start` handler: throws when `allowedUsers` is undefined;
otherwise adds the (truthy) sender id when allow-listed and replies, or
replies with the no-access message. Returns the new subscriber set and the
reply. -/
def startHandler (allowed? : Option (List Int)) (userId : Option Int)
    (subs : List Int) : Except String (List Int × String) :=
  match allowed? with
  | none => Except.error "Allowed users are not provided"
  | some allowed =>
    match userId with
    | some u =>
        if u ≠ 0 ∧ u ∈ allowed then Except.ok (setAdd subs u, startOkReply)
        else Except.ok (subs, noAccessReply)
    | none => Except.ok (subs, noAccessReply)

/-- Subscriber set after a `/start` command (unchanged when the handler
throws). -/
def startResultSubs (allowed? : Option (List Int)) (userId : Option Int)
    (subs : List Int) : List Int :=
  match startHandler allowed? userId subs with
  | Except.ok (s, _) => s
  | Except.error _ => subs

/-- Embeds the `/stop` handler: a truthy sender id is deleted from the
subscriber set unconditionally and the stop reply is sent. -/
def stopHandler (userId : Option Int) (subs : List Int) :
    List Int × Option String :=
  match userId with
  | some u => if u ≠ 0 then (subs.erase u, some stopReply) else (subs, none)
  | none => (subs, none)

/-- Text of the `/status` reply. -/
def statusReply (subs : List Int) : String :=
  "📊 Статус: активен\nПодписчиков: " ++ toString subs.length

/-- Embeds the `/status` handler. The handler object has access to the IMAP
connection (hence `state` is an argument), but the source body never reads
it: a subscribed truthy sender gets the fixed reply, anyone else gets no
reply, and the subscriber set is returned unchanged. -/
def statusHandler (_state : ConnState) (userId : Option Int) (subs : List Int) :
    Option String × List Int :=
  match userId with
  | some u =>
      if u ≠ 0 ∧ u ∈ subs then (some (statusReply subs), subs)
      else (none, subs)
  | none => (none, subs)

/-! ### Constructor / startup validation (`bot.ts` lines 7–47) -/

/-- Mirrors the `EmailConfig` interface: every credential may be undefined. -/
structure EmailConfig where
  user : Option String
  password : Option String
  host : Option String
  port : Option Nat
  tls : Bool
deriving DecidableEq

/-- Mirrors the `BotConfig` interface of `bot.ts`. -/
structure BotConfig where
  telegramToken : Option String
  allowedUsers : Option (List Int)
  email : EmailConfig
deriving DecidableEq

/-- Embeds the validation in `setupImap`: any undefined credential throws. -/
def setupImapCheck (e : EmailConfig) : Except String Unit :=
  if e.user.isNone || e.password.isNone || e.host.isNone || e.port.isNone then
    Except.error "Email credentials are not provided"
  else Except.ok ()

/-- Embeds the `EmailMonitorBot` constructor: an undefined token throws,
then `setupImap` validates the mail credentials; `setupBot` only registers
handlers and performs no further validation. -/
def emailMonitorBotCtor (config : BotConfig) : Except String Unit :=
  match config.telegramToken with
  | none => Except.error "Bot token is not provided"
  | some _ => setupImapCheck config.email

/-! ### Connection-error handling (`setupImap`, `bot.ts` lines 62–68) -/

/-- One observable action of the connection-lifecycle handlers. -/
inductive SupAction
  | logError
  | scheduleReconnect (delay : Nat)
  | notifyDegraded
deriving DecidableEq

/-- Embeds the `imap.once('error', ...)` handler: it logs the error and does
nothing else. -/
def onImapError : List SupAction := [SupAction.logError]

/-- Actions performed over `failures` consecutive connection-level errors. -/
def imapErrorActions (failures : Nat) : List SupAction :=
  (List.replicate failures onImapError).flatten

/-- Reconnect delays scheduled over `failures` consecutive errors. -/
def reconnectDelays (failures : Nat) : List Nat :=
  (imapErrorActions failures).filterMap
    (fun a => match a with
      | SupAction.scheduleReconnect d => some d
      | _ => none)

/-! ### Poll scheduling (`startMonitoring`, `bot.ts` lines 115–120) -/

/-- State of the polling model: how many cycles are in flight and how many
search calls have been issued. `inFlight` is ghost bookkeeping — the source
keeps no such variable, which is exactly the point: its tick handler calls
`checkNewEmails()` without awaiting it and without any in-progress check. -/
structure PollState where
  inFlight : Nat
  searchCalls : Nat
deriving DecidableEq

/-- Events of the polling model: a cron tick (with the current subscriber
count) or the asynchronous completion of an earlier cycle. -/
inductive PollEvent
  | tick (subsCount : Nat)
  | complete
deriving DecidableEq

/-- Embeds the cron callback: every tick invokes `checkNewEmails`, whose only
early return is on an empty subscriber set; a nonempty set always proceeds to
open the inbox and search, regardless of cycles still in flight. -/
def pollStep (s : PollState) : PollEvent → PollState
  | PollEvent.tick n =>
      if n = 0 then s
      else { inFlight := s.inFlight + 1, searchCalls := s.searchCalls + 1 }
  | PollEvent.complete => { s with inFlight := s.inFlight - 1 }

/-- Run the polling model from the initial state. -/
def runPoll (events : List PollEvent) : PollState :=
  events.foldl pollStep ⟨0, 0⟩

/-- A tick that actually starts a cycle (nonempty subscriber set). -/
def isActiveTick : PollEvent → Bool
  | PollEvent.tick n => n != 0
  | PollEvent.complete => false

/-! ### Concrete values used by counterexamples and witnesses -/

/-- A minimal message whose subject matches the alert token. -/
def alertMail : MailMessage :=
  { subject := some "ALERT", fromText := none, dateStr := none, text := none }

/-- A 2000-character body. -/
def bigBody : String := String.mk (List.replicate 2000 'a')

/-- A mail with an alert subject and a 2000-character body. -/
def bigMail : MailMessage :=
  { subject := some "Nightly ALERT: disk full", fromText := some "chronos",
    dateStr := some "01.01.2026, 03:00:00", text := some bigBody }

/-- Delivery outcomes where exactly user 2 fails with a blocked error. -/
def oneBlockedOutcome : Int → DeliveryResult :=
  fun u => if u = 2 then DeliveryResult.fail "bot was blocked by the user"
           else DeliveryResult.ok

/-- A mail configuration with every credential present. -/
def fullEmailConfig : EmailConfig :=
  { user := some "u@example.com", password := some "pw",
    host := some "imap.example.com", port := some 993, tls := true }

/-- A configuration whose only missing value is the allow-list. -/
def cfgNoAllowList : BotConfig :=
  { telegramToken := some "token", allowedUsers := none,
    email := fullEmailConfig }

/-! ### Helper lemmas -/

/-- A subject whose lowercase form contains "alert" is nonempty. -/
theorem containsToken_alert_ne_empty {s : String}
    (h : containsToken "alert" (jsToLower s) = true) : s ≠ "" := by
  intro he
  subst he
  exact absurd h (by decide)

/-- The per-message handler never issues a fetch operation. -/
theorem processMessage_no_fetch (uid : Nat) (mail : MailMessage) (b : Bool) :
    MailOp.fetch b ∉ processMessage uid mail := by
  by_cases h : isAlert mail.subject <;> simp [processMessage, h]

/-! ### Claims -/

/-- C1: the classifier marks a fetched message as an alert (sending the alert
notification in the processing trace) iff its subject is present and the
subject's case-insensitive form contains the token "alert". -/
theorem C1_alert_classifier (uid : Nat) (mail : MailMessage) :
    (MailOp.sendAlert mail ∈ processMessage uid mail ↔
      isAlert mail.subject = true) ∧
    (isAlert mail.subject = true ↔
      ∃ s, mail.subject = some s ∧
        containsToken "alert" (jsToLower s) = true) := by
  constructor
  · by_cases h : isAlert mail.subject <;> simp [processMessage, h]
  · cases hs : mail.subject with
    | none => simp [isAlert]
    | some s =>
        constructor
        · intro hb
          rw [isAlert, Bool.and_eq_true] at hb
          exact ⟨s, rfl, hb.2⟩
        · rintro ⟨s', hs', hc⟩
          injection hs' with h'
          subst h'
          rw [isAlert, Bool.and_eq_true]
          refine ⟨?_, hc⟩
          simpa [bne_iff_ne] using containsToken_alert_ne_empty hc

/-- C2 counterexample: for a fetched alert message the trace contains no
`fetch` with `markSeen = true`, but does contain a separate explicit
`addFlags(['\Seen'])` call — contradicting the claim that the fetch-time
flag is the sole seen-marking mechanism with no explicit flag call. -/
theorem C2_counterexample :
    MailOp.fetch true ∉ searchEmailsOps [(1, alertMail)] ∧
    MailOp.addFlagsSeen 1 ∈ searchEmailsOps [(1, alertMail)] ∧
    searchEmailsOps [(1, alertMail)] =
      [MailOp.search, MailOp.fetch false, MailOp.sendAlert alertMail,
       MailOp.addFlagsSeen 1] := by
  refine ⟨by decide, by decide, rfl⟩

/-- C2 amended: messages are fetched with `markSeen = false`; each fetched
message is instead marked seen by a separate explicit `addFlags(['\Seen'])`
call issued after parsing, and for an alert message the alert notification
is sent before that mark-seen call, so the AlertEvent is derived from a
message not yet marked seen. -/
theorem C2_amended_explicit_mark_seen (results : List (Nat × MailMessage)) :
    MailOp.fetch true ∉ searchEmailsOps results ∧
    (∀ p ∈ results, MailOp.addFlagsSeen p.1 ∈ searchEmailsOps results) ∧
    (∀ uid mail, isAlert mail.subject = true →
      processMessage uid mail =
        [MailOp.sendAlert mail, MailOp.addFlagsSeen uid]) := by
  refine ⟨?_, ?_, ?_⟩
  · intro hmem
    rcases List.mem_cons.mp hmem with h | h
    · cases h
    · by_cases he : results.isEmpty
      · rw [if_pos he] at h
        simp at h
      · rw [if_neg he] at h
        rcases List.mem_cons.mp h with h' | h'
        · cases h'
        · rcases List.mem_flatten.mp h' with ⟨l, hl, hmem'⟩
          rcases List.mem_map.mp hl with ⟨p, _, rfl⟩
          exact processMessage_no_fetch p.1 p.2 true hmem'
  · intro p hp
    unfold searchEmailsOps
    apply List.mem_cons_of_mem
    have hne : ¬ results.isEmpty = true := by
      rw [List.isEmpty_iff]
      exact List.ne_nil_of_mem hp
    rw [if_neg hne]
    apply List.mem_cons_of_mem
    refine List.mem_flatten.mpr
      ⟨processMessage p.1 p.2, List.mem_map.mpr ⟨p, hp, rfl⟩, ?_⟩
    simp [processMessage]
  · intro uid mail h
    simp [processMessage, h]

/-- C2 amended witness at the concrete alert message. -/
theorem C2_amended_witness :
    MailOp.fetch true ∉ searchEmailsOps [(1, alertMail)] ∧
    MailOp.addFlagsSeen 1 ∈ searchEmailsOps [(1, alertMail)] ∧
    processMessage 1 alertMail =
      [MailOp.sendAlert alertMail, MailOp.addFlagsSeen 1] :=
  ⟨(C2_amended_explicit_mark_seen [(1, alertMail)]).1,
   (C2_amended_explicit_mark_seen [(1, alertMail)]).2.1 (1, alertMail)
     (by simp),
   (C2_amended_explicit_mark_seen [(1, alertMail)]).2.2 1 alertMail rfl⟩

/-- C3 counterexample: five consecutive connection-level failures schedule no
reconnect delays at all (not the claimed 1000, 2000, 4000, 8000, 16000 ms)
and produce no degraded notification. -/
theorem C3_counterexample :
    reconnectDelays 5 = [] ∧
    reconnectDelays 5 ≠ [1000, 2000, 4000, 8000, 16000] ∧
    SupAction.notifyDegraded ∉ imapErrorActions 5 := by
  refine ⟨rfl, by decide, by decide⟩

/-- C3 amended: after a connection-level failure the error handler only logs;
no reconnection attempt is ever scheduled (at any delay) and no degraded
notification is emitted, however many consecutive failures occur. -/
theorem C3_amended_no_reconnect (n : Nat) :
    reconnectDelays n = [] ∧
    SupAction.notifyDegraded ∉ imapErrorActions n ∧
    imapErrorActions n = List.replicate n SupAction.logError := by
  have hact : imapErrorActions n = List.replicate n SupAction.logError := by
    induction n with
    | zero => rfl
    | succ k ih =>
        unfold imapErrorActions at ih ⊢
        rw [List.replicate_succ, List.flatten_cons, ih,
          List.replicate_succ]
        rfl
  refine ⟨?_, ?_, hact⟩
  · unfold reconnectDelays
    rw [hact]
    induction n with
    | zero => rfl
    | succ k ih =>
        rw [List.replicate_succ, List.filterMap_cons]
        simp [ih]
  · rw [hact]
    intro hm
    exact absurd (List.eq_of_mem_replicate hm) (by decide)

/-- Search-call count of the polling model: every tick with a nonempty
subscriber set adds one search, whatever the in-flight count. -/
theorem pollStep_foldl_searchCalls (events : List PollEvent) (s : PollState) :
    (events.foldl pollStep s).searchCalls =
      s.searchCalls + (events.filter isActiveTick).length := by
  induction events generalizing s with
  | nil => simp
  | cons e rest ih =>
      cases e with
      | tick n =>
          rw [List.foldl_cons, List.filter_cons]
          by_cases hn : n = 0
          · subst hn
            simp [pollStep, isActiveTick, ih]
          · have h1 : pollStep s (PollEvent.tick n) =
                ⟨s.inFlight + 1, s.searchCalls + 1⟩ := by
              simp [pollStep, hn]
            have h2 : isActiveTick (PollEvent.tick n) = true := by
              simp [isActiveTick, hn]
            rw [h1, ih, h2]
            simp
            omega
      | complete =>
          rw [List.foldl_cons, List.filter_cons]
          simp [pollStep, isActiveTick, ih]

/-- C4 counterexample: two consecutive ticks with a nonempty subscriber set
and no intervening completion leave two cycles in flight and two search
calls issued — the second tick was not dropped and a second search ran
before the first cycle completed. -/
theorem C4_counterexample :
    ¬ (runPoll [PollEvent.tick 1, PollEvent.tick 1]).inFlight ≤ 1 ∧
    (runPoll [PollEvent.tick 1, PollEvent.tick 1]).searchCalls = 2 := by
  exact ⟨by decide, by decide⟩

/-- C4 amended: the cron callback has no cycle-in-progress guard — every tick
that fires with a nonempty subscriber set issues a search call regardless of
cycles still in flight (the search count equals the count of such ticks),
and two un-completed ticks leave two cycles in flight concurrently. -/
theorem C4_amended_no_overlap_guard (events : List PollEvent) :
    (runPoll events).searchCalls = (events.filter isActiveTick).length ∧
    (runPoll [PollEvent.tick 1, PollEvent.tick 1]).inFlight = 2 := by
  refine ⟨?_, by decide⟩
  simpa [runPoll] using pollStep_foldl_searchCalls events ⟨0, 0⟩

/-- Closed form of the dispatch loop: the delivered pairs are the
ok-outcome subscribers in order, and the removed ids are exactly the
subscribers whose delivery failed with a "blocked" error message. -/
theorem sendAlertNotification_spec (outcome : Int → DeliveryResult)
    (message : String) (subs : List Int) :
    (sendAlertNotification outcome message subs).1 =
      (subs.filter (fun u => match outcome u with
        | DeliveryResult.ok => true
        | DeliveryResult.fail _ => false)).map (fun u => (u, message)) ∧
    (sendAlertNotification outcome message subs).2 =
      subs.filter (fun u => match outcome u with
        | DeliveryResult.ok => false
        | DeliveryResult.fail m => isBlockedError m) := by
  induction subs with
  | nil => exact ⟨rfl, rfl⟩
  | cons v rest ih =>
      cases hov : outcome v with
      | ok =>
          constructor
          · simp [sendAlertNotification, hov, List.filter_cons, ih.1]
          · simp [sendAlertNotification, hov, List.filter_cons, ih.2]
      | fail m =>
          by_cases hb : isBlockedError m
          · constructor
            · simp [sendAlertNotification, hov, hb, List.filter_cons, ih.1]
            · simp [sendAlertNotification, hov, hb, List.filter_cons, ih.2]
          · constructor
            · simp [sendAlertNotification, hov, hb, List.filter_cons, ih.1]
            · simp [sendAlertNotification, hov, hb, List.filter_cons, ih.2]

/-- C5: a per-subscriber delivery failure never aborts the remaining
deliveries — every subscriber whose delivery succeeds receives the message —
and a subscriber is removed iff its delivery failed with an error message
classified permanent (containing "blocked"). -/
theorem C5_partial_failure (outcome : Int → DeliveryResult) (message : String)
    (subs : List Int) (u : Int) (hu : u ∈ subs) :
    (outcome u = DeliveryResult.ok →
      (u, message) ∈ (sendAlertNotification outcome message subs).1) ∧
    (u ∈ (sendAlertNotification outcome message subs).2 ↔
      ∃ m, outcome u = DeliveryResult.fail m ∧ isBlockedError m = true) := by
  obtain ⟨h1, h2⟩ := sendAlertNotification_spec outcome message subs
  constructor
  · intro ho
    rw [h1]
    refine List.mem_map.mpr ⟨u, ?_, rfl⟩
    refine List.mem_filter.mpr ⟨hu, ?_⟩
    rw [ho]
  · rw [h2, List.mem_filter]
    cases hov : outcome u with
    | ok => simp [hov]
    | fail m =>
        by_cases hb : isBlockedError m
        · simp [hov, hb, hu]
        · simp [hov, hb]

/-- C5 witness: three subscribers, user 2 fails with a blocked error;
user 1 is still delivered and is removed only under the stated condition. -/
theorem C5_partial_failure_witness :
    ((1, "m") ∈ (sendAlertNotification oneBlockedOutcome "m" [1, 2, 3]).1) ∧
    (1 ∈ (sendAlertNotification oneBlockedOutcome "m" [1, 2, 3]).2 ↔
      ∃ m, oneBlockedOutcome 1 = DeliveryResult.fail m ∧
        isBlockedError m = true) :=
  ⟨(C5_partial_failure oneBlockedOutcome "m" [1, 2, 3] 1 (by decide)).1 rfl,
   (C5_partial_failure oneBlockedOutcome "m" [1, 2, 3] 1 (by decide)).2⟩

/-- C6: in multi-subscriber mode, `/start` adds a (positive) user id iff it
is in the allow-list, and `/stop` removes the id unconditionally and
idempotently — removing an absent id succeeds and leaves the set unchanged. -/
theorem C6_start_stop (allowed subs : List Int) (u : Int)
    (hpos : 0 < u) (hnd : subs.Nodup) :
    (u ∈ startResultSubs (some allowed) (some u) subs ↔
      u ∈ allowed ∨ u ∈ subs) ∧
    (u ∉ allowed → startResultSubs (some allowed) (some u) subs = subs) ∧
    (stopHandler (some u) subs).1 = subs.erase u ∧
    u ∉ (stopHandler (some u) subs).1 ∧
    (u ∉ subs → (stopHandler (some u) subs).1 = subs) := by
  have hne : u ≠ 0 := hpos.ne'
  have hstop : (stopHandler (some u) subs).1 = subs.erase u := by
    simp [stopHandler, hne]
  refine ⟨?_, ?_, hstop, ?_, ?_⟩
  · by_cases ha : u ∈ allowed
    · have h : startResultSubs (some allowed) (some u) subs = setAdd subs u := by
        simp [startResultSubs, startHandler, hne, ha]
      rw [h]
      by_cases hs : u ∈ subs <;> simp [setAdd, hs, ha]
    · have h : startResultSubs (some allowed) (some u) subs = subs := by
        simp [startResultSubs, startHandler, hne, ha]
      rw [h]
      simp [ha]
  · intro ha
    simp [startResultSubs, startHandler, hne, ha]
  · rw [hstop]
    exact hnd.not_mem_erase
  · intro hs
    rw [hstop]
    exact List.erase_of_not_mem hs

/-- C6 witness at a concrete allow-listed user and empty subscriber set. -/
theorem C6_start_stop_witness :
    (7 ∈ startResultSubs (some [7]) (some 7) [] ↔
      7 ∈ [(7 : Int)] ∨ 7 ∈ ([] : List Int)) ∧
    (7 ∉ [(7 : Int)] → startResultSubs (some [7]) (some 7) [] = []) ∧
    (stopHandler (some 7) []).1 = ([] : List Int).erase 7 ∧
    7 ∉ (stopHandler (some 7) []).1 ∧
    (7 ∉ ([] : List Int) → (stopHandler (some 7) []).1 = []) :=
  C6_start_stop [7] [] 7 (by decide) (by simp)

/-- C7 counterexample: a configuration with every mail credential and the
token present but the allow-list missing still constructs successfully, and
the missing allow-list only surfaces as an error when the `/start` command
is handled — startup does not fail fast on it. -/
theorem C7_counterexample :
    emailMonitorBotCtor cfgNoAllowList = Except.ok () ∧
    cfgNoAllowList.allowedUsers = none ∧
    startHandler cfgNoAllowList.allowedUsers (some 7) [] =
      Except.error "Allowed users are not provided" :=
  ⟨rfl, rfl, rfl⟩

/-- C7 amended: startup fails fast iff the telegram token or any mail
credential (user, password, host, port) is missing; a missing allow-list
does not fail startup — its error is raised only inside the `/start`
command handler. -/
theorem C7_amended_fail_fast (config : BotConfig) :
    (emailMonitorBotCtor config = Except.ok () ↔
      config.telegramToken.isSome = true ∧
      config.email.user.isSome = true ∧
      config.email.password.isSome = true ∧
      config.email.host.isSome = true ∧
      config.email.port.isSome = true) ∧
    (∀ userId subs, startHandler none userId subs =
      Except.error "Allowed users are not provided") := by
  constructor
  · obtain ⟨tok, al, eu, ep, eh, epo, etls⟩ := config
    cases tok <;> cases eu <;> cases ep <;> cases eh <;> cases epo <;>
      simp [emailMonitorBotCtor, setupImapCheck]
  · intro userId subs
    rfl

/-- The concrete 2000-character body exceeds the 500-character limit. -/
theorem bigBody_gt_500 : 500 < bigBody.data.length := by
  show 500 < (List.replicate 2000 'a').length
  rw [List.length_replicate]
  norm_num

/-- C8: for an alert mail whose body exceeds the 500-character maximum, the
formatted notification carries the body truncated to exactly 500 characters
(with an ellipsis marker), and delivery to subscribers A and B with
successful outcomes hands both the identical formatted message with zero
removals from the subscriber registry. -/
theorem C8_truncation_and_broadcast (now : String) (mail : MailMessage)
    (t : String) (A B : Int) (ht : mail.text = some t)
    (hlen : 500 < t.data.length) :
    alertBodyText mail = jsSubstringTo t 500 ++ "..." ∧
    (jsSubstringTo t 500).data.length = 500 ∧
    (sendAlertNotification (fun _ => DeliveryResult.ok)
        (formatAlertMessage now mail) [A, B]).1 =
      [(A, formatAlertMessage now mail), (B, formatAlertMessage now mail)] ∧
    (sendAlertNotification (fun _ => DeliveryResult.ok)
        (formatAlertMessage now mail) [A, B]).2 = [] := by
  have htne : t ≠ "" := by
    intro he
    subst he
    exact absurd hlen (by decide)
  refine ⟨?_, ?_, ?_, ?_⟩
  · simp [alertBodyText, ht, htne]
  · show (t.data.take 500).length = 500
    rw [List.length_take]
    omega
  · simp [sendAlertNotification]
  · simp [sendAlertNotification]

/-- C8 witness: the concrete scenario of the spec — subscribers {10, 11},
subject "Nightly ALERT: disk full", body of 2000 characters. -/
theorem C8_truncation_and_broadcast_witness :
    alertBodyText bigMail = jsSubstringTo bigBody 500 ++ "..." ∧
    (jsSubstringTo bigBody 500).data.length = 500 ∧
    (sendAlertNotification (fun _ => DeliveryResult.ok)
        (formatAlertMessage "x" bigMail) [10, 11]).1 =
      [(10, formatAlertMessage "x" bigMail),
       (11, formatAlertMessage "x" bigMail)] ∧
    (sendAlertNotification (fun _ => DeliveryResult.ok)
        (formatAlertMessage "x" bigMail) [10, 11]).2 = [] :=
  C8_truncation_and_broadcast "x" bigMail bigBody 10 11 rfl bigBody_gt_500

/-- C9 counterexample: the `/status` reply is byte-for-byte identical in the
degraded and the ready connection states, so the response does not report
the current `ConnectionState` — contradicting the claim that the status
command reads it and reports it. -/
theorem C9_counterexample :
    statusHandler ConnState.degraded (some 1) [1] =
      statusHandler ConnState.ready (some 1) [1] ∧
    ConnState.degraded ≠ ConnState.ready ∧
    (statusHandler ConnState.degraded (some 1) [1]).1 =
      some (statusReply [1]) :=
  ⟨rfl, by decide, rfl⟩

/-- C9 amended: the `/status` command replies, to subscribed users only, with
a fixed "active" status string plus the current subscriber count; the reply
is independent of the `ConnectionState` (which the handler never reads),
mutates nothing, and never contains raw internal errors. -/
theorem C9_amended_status (state state' : ConnState) (userId : Option Int)
    (subs : List Int) :
    statusHandler state userId subs = statusHandler state' userId subs ∧
    (statusHandler state userId subs).2 = subs ∧
    (∀ u, userId = some u → u ≠ 0 → u ∈ subs →
      (statusHandler state userId subs).1 = some (statusReply subs)) := by
  refine ⟨rfl, ?_, ?_⟩
  · cases userId with
    | none => rfl
    | some u =>
        by_cases h : u ≠ 0 ∧ u ∈ subs <;> simp [statusHandler, h]
  · rintro u rfl hne hmem
    simp [statusHandler, hne, hmem]

/-- C9 amended witness at a concrete subscribed user. -/
theorem C9_amended_status_witness :
    statusHandler ConnState.ready (some 1) [1] =
      statusHandler ConnState.disconnected (some 1) [1] ∧
    (statusHandler ConnState.ready (some 1) [1]).2 = [1] ∧
    (statusHandler ConnState.ready (some 1) [1]).1 =
      some (statusReply [1]) := by
  obtain ⟨h1, h2, h3⟩ :=
    C9_amended_status ConnState.ready ConnState.disconnected (some 1) [1]
  exact ⟨h1, h2, h3 1 rfl (by decide) (by decide)⟩

/-- C10: a poll tick that fires with an empty subscriber set produces no
IMAP or notification operation at all — the trace is empty, so the mailbox
is not opened and no search, fetch, alert send, or flag write occurs. -/
theorem C10_empty_subscribers_skip (mailbox : List (Nat × MailMessage)) :
    checkNewEmails [] mailbox = [] := rfl

/-- C1 witness at a concrete alert message. -/
theorem C1_alert_classifier_witness :
    (MailOp.sendAlert alertMail ∈ processMessage 1 alertMail ↔
      isAlert alertMail.subject = true) ∧
    (isAlert alertMail.subject = true ↔
      ∃ s, alertMail.subject = some s ∧
        containsToken "alert" (jsToLower s) = true) :=
  C1_alert_classifier 1 alertMail

/-- C3 amended witness at five consecutive failures. -/
theorem C3_amended_no_reconnect_witness :
    reconnectDelays 5 = [] ∧
    SupAction.notifyDegraded ∉ imapErrorActions 5 ∧
    imapErrorActions 5 = List.replicate 5 SupAction.logError :=
  C3_amended_no_reconnect 5

/-- C4 amended witness at a concrete event trace. -/
theorem C4_amended_no_overlap_guard_witness :
    (runPoll [PollEvent.tick 1, PollEvent.complete,
        PollEvent.tick 0]).searchCalls =
      ([PollEvent.tick 1, PollEvent.complete,
        PollEvent.tick 0].filter isActiveTick).length ∧
    (runPoll [PollEvent.tick 1, PollEvent.tick 1]).inFlight = 2 :=
  C4_amended_no_overlap_guard
    [PollEvent.tick 1, PollEvent.complete, PollEvent.tick 0]

/-- C7 amended witness at the configuration missing only the allow-list. -/
theorem C7_amended_fail_fast_witness :
    (emailMonitorBotCtor cfgNoAllowList = Except.ok () ↔
      cfgNoAllowList.telegramToken.isSome = true ∧
      cfgNoAllowList.email.user.isSome = true ∧
      cfgNoAllowList.email.password.isSome = true ∧
      cfgNoAllowList.email.host.isSome = true ∧
      cfgNoAllowList.email.port.isSome = true) ∧
    (∀ userId subs, startHandler none userId subs =
      Except.error "Allowed users are not provided") :=
  C7_amended_fail_fast cfgNoAllowList

/-- C10 witness at a concrete nonempty mailbox. -/
theorem C10_empty_subscribers_skip_witness :
    checkNewEmails [] [(1, alertMail)] = [] :=
  C10_empty_subscribers_skip [(1, alertMail)]
